import Mathlib

/-!
Shallow embedding of the environment-provisioning orchestrator of
`next-saas-starter-turso` (the setup script concatenated after the drizzle
schema in `src/lib/db/schema.ts`, lines 150-361).

Each async function of the script is modelled as a pure Lean function from an
oracle record `Env` (the operator's answers and the outcomes/stdout of every
external command the script may run) to an `Outcome` paired with the ordered
trace of observable effects (`Event`): commands executed, prompts shown, files
written.  `process.exit(n)` is the `Outcome.exited n` value, a thrown error is
`Outcome.err msg`, and the top-level handler `main().catch(console.error)` is
`topLevel`.
-/

set_option autoImplicit false

namespace Setup

/-- Result of running a step of the script: normal value, `process.exit code`,
or a thrown error carrying its message. -/
inductive Outcome (α : Type) where
  | ok : α → Outcome α
  | exited : Nat → Outcome α
  | err : String → Outcome α
deriving DecidableEq

/-- Observable side effects of the script, in order: an external command
invocation (`execAsync cmd`), a readline prompt (`question query`), and a file
write (`fs.writeFile path content`). -/
inductive Event where
  | execCmd : String → Event
  | prompt : String → Event
  | writeFile : String → String → Event
deriving DecidableEq

/-- True exactly on file-write events. -/
def Event.isWrite : Event → Bool
  | .writeFile _ _ => true
  | _ => false

/-- Oracle for one run: the operator's answers to each prompt and the result of
every external command the script can invoke.  `...Ok` fields say whether the
corresponding `execAsync` resolves; `...Out` fields are the captured stdout. -/
structure Env where
  stripeVersionOk : Bool
  stripeAuthOk1 : Bool
  stripeAuthAnswer : String
  stripeAuthOk2 : Bool
  dbChoice : String
  tursoVersionOk : Bool
  dbName : String
  tursoCreateOk : Bool
  tursoShowOk : Bool
  tursoShowOut : String
  tursoAuthToken : String
  stripeKey : String
  stripeListenOk : Bool
  stripeListenOut : String
  randBytes : List Nat

/-- ASCII lowering of one character, as JS `toLowerCase` acts on the ASCII
range (the only range the script compares against). -/
def jsLowerChar (c : Char) : Char :=
  if 'A' ≤ c ∧ c ≤ 'Z' then Char.ofNat (c.toNat + 32) else c

/-- JS `String.prototype.toLowerCase` restricted to ASCII. -/
def jsToLower (s : String) : String :=
  ⟨s.data.map jsLowerChar⟩

/-- JS whitespace recognized by `String.prototype.trim`. -/
def isJsWS (c : Char) : Bool :=
  c = ' ' || c = '\t' || c = '\n' || c = '\r' || c = '\x0b' || c = '\x0c'

/-- JS `String.prototype.trim`: strip whitespace from both ends. -/
def jsTrim (s : String) : String :=
  ⟨((s.data.dropWhile isJsWS).reverse.dropWhile isJsWS).reverse⟩

/-- Alphanumeric ASCII character, the `[a-zA-Z0-9]` class of the regex. -/
def isAlnum (c : Char) : Bool :=
  ('a' ≤ c && c ≤ 'z') || ('A' ≤ c && c ≤ 'Z') || ('0' ≤ c && c ≤ '9')

/-- The literal characters of the regex head `whsec_`. -/
def whsecHead : List Char := ['w', 'h', 's', 'e', 'c', '_']

/-- Leftmost match of the JS regex `/whsec_[a-zA-Z0-9]+/` in a character list:
scan positions left to right; at the first position where `whsec_` is followed
by at least one alphanumeric character, return `whsec_` plus the maximal
alphanumeric run. -/
def findWhsec : List Char → Option (List Char)
  | [] => none
  | c :: cs =>
    if whsecHead.isPrefixOf (c :: cs) && !(((c :: cs).drop 6).takeWhile isAlnum).isEmpty then
      some (whsecHead ++ ((c :: cs).drop 6).takeWhile isAlnum)
    else
      findWhsec cs

/-- One lowercase hexadecimal digit, as Node `Buffer.toString("hex")` emits. -/
def hexDigit (n : Nat) : Char :=
  if n < 10 then Char.ofNat (48 + n) else Char.ofNat (87 + n)

/-- Hex encoding of a byte list, two lowercase digits per byte. -/
def hexEncode : List Nat → List Char
  | [] => []
  | b :: bs => hexDigit (b / 16) :: hexDigit (b % 16) :: hexEncode bs

/-- Lowercase hexadecimal character. -/
def isLowerHexChar (c : Char) : Bool :=
  ('0' ≤ c && c ≤ '9') || ('a' ≤ c && c ≤ 'f')

/-- `generateAuthSecret` (schema.ts:318-321): hex-encodes the 32 bytes drawn
from `crypto.randomBytes`; the drawn bytes are the `bytes` oracle argument. -/
def generateAuthSecret (bytes : List Nat) : String :=
  ⟨hexEncode bytes⟩

/-- JS `Array.prototype.join("\n")` on character lists. -/
def joinNL : List (List Char) → List Char
  | [] => []
  | [l] => l
  | l :: ls => l ++ '\n' :: joinNL ls

/-- Split a character list at every newline (inverse view of `joinNL`). -/
def splitNL : List Char → List (List Char)
  | [] => [[]]
  | c :: cs =>
    if c = '\n' then [] :: splitNL cs
    else
      match splitNL cs with
      | [] => [[c]]
      | l :: ls => (c :: l) :: ls

/-- The serialized `.env` content built by `writeEnvFile` (schema.ts:325-327):
`Object.entries(envVars).map(([key, value]) => ` KEY=value `).join("\n")`,
with the mapping in insertion order. -/
def envContent (vars : List (String × String)) : String :=
  ⟨joinNL (vars.map fun kv => kv.1.data ++ '=' :: kv.2.data)⟩

/-- A file system, mapping paths to contents. -/
abbrev FS := String → Option String

/-- `fs.writeFile`: unconditional overwrite of one path. -/
def fsWrite (fs : FS) (p c : String) : FS :=
  fun q => if q = p then some c else fs q

/-- The fixed target path `path.join(process.cwd(), ".env")`, relative to the
working directory. -/
def envFilePath : String := ".env"

/-- `writeEnvFile` (schema.ts:323-331): serialize and overwrite `.env`. -/
def writeEnvFile (vars : List (String × String)) (fs : FS) : FS :=
  fsWrite fs envFilePath (envContent vars)

/-- The auth-probe command of the preflight checker. -/
def authProbeCmd : Event := Event.execCmd "stripe config --list"

/-- Number of auth-probe invocations recorded in a trace. -/
def authProbeCount (tr : List Event) : Nat :=
  tr.count authProbeCmd

/-- The prompt of the preflight remediation question (schema.ts:191-193). -/
def stripeAuthQuery : String := "Have you completed the authentication? (y/n): "

/-- `checkStripeCLI` (schema.ts:174-227): version probe, then auth probe; on
auth failure one remediation prompt whose answer must lowercase to `y`, then a
single re-probe.  Every failure is `process.exit(1)`. -/
def checkStripeCLI (env : Env) : Outcome Unit × List Event :=
  if env.stripeVersionOk then
    if env.stripeAuthOk1 then
      (Outcome.ok (), [Event.execCmd "stripe --version", authProbeCmd])
    else
      if jsToLower env.stripeAuthAnswer ≠ "y" then
        (Outcome.exited 1,
          [Event.execCmd "stripe --version", authProbeCmd, Event.prompt stripeAuthQuery])
      else
        if env.stripeAuthOk2 then
          (Outcome.ok (),
            [Event.execCmd "stripe --version", authProbeCmd, Event.prompt stripeAuthQuery,
              authProbeCmd])
        else
          (Outcome.exited 1,
            [Event.execCmd "stripe --version", authProbeCmd, Event.prompt stripeAuthQuery,
              authProbeCmd])
  else
    (Outcome.exited 1, [Event.execCmd "stripe --version"])

/-- `checkTursoCLI` (schema.ts:229-246): version probe only, exit 1 on failure. -/
def checkTursoCLI (env : Env) : Outcome Unit × List Event :=
  if env.tursoVersionOk then
    (Outcome.ok (), [Event.execCmd "turso --version"])
  else
    (Outcome.exited 1, [Event.execCmd "turso --version"])

/-- Prompt of the local/remote choice (schema.ts:254-256). -/
def dbChoiceQuery : String :=
  "Do you want to use a local SQLite file (L) or a remote Turso database (R)? (L/R): "

/-- Prompt for the Turso database name (schema.ts:263). -/
def dbNameQuery : String := "Enter a name for your Turso database: "

/-- Prompt for the Turso auth token (schema.ts:275-277). -/
def authTokenQuery : String := "Enter your Turso authentication token: "

/-- Result record of `getTursoDatabaseInfo`; `authToken` is absent on the
local path (the JS object has no such property there). -/
structure DbInfo where
  url : String
  isRemote : Bool
  authToken : Option String
deriving DecidableEq

/-- `getTursoDatabaseInfo` (schema.ts:248-285): prompt for local vs remote; on
an answer lowercasing to `l` return the fixed local info with no external
call; otherwise check the Turso CLI, prompt for a name, create the database,
fetch and trim its URL, and prompt for an auth token.  Either exec failure in
the try block is `process.exit(1)`. -/
def getTursoDatabaseInfo (env : Env) : Outcome DbInfo × List Event :=
  if jsToLower env.dbChoice = "l" then
    (Outcome.ok ⟨"file:dev.db", false, none⟩, [Event.prompt dbChoiceQuery])
  else
    match checkTursoCLI env with
    | (Outcome.ok _, tr) =>
      if env.tursoCreateOk then
        if env.tursoShowOk then
          (Outcome.ok ⟨jsTrim env.tursoShowOut, true, some env.tursoAuthToken⟩,
            Event.prompt dbChoiceQuery :: tr ++
              [Event.prompt dbNameQuery,
                Event.execCmd ("turso db create " ++ env.dbName),
                Event.execCmd ("turso db show " ++ env.dbName ++ " --url"),
                Event.prompt authTokenQuery])
        else
          (Outcome.exited 1,
            Event.prompt dbChoiceQuery :: tr ++
              [Event.prompt dbNameQuery,
                Event.execCmd ("turso db create " ++ env.dbName),
                Event.execCmd ("turso db show " ++ env.dbName ++ " --url")])
      else
        (Outcome.exited 1,
          Event.prompt dbChoiceQuery :: tr ++
            [Event.prompt dbNameQuery,
              Event.execCmd ("turso db create " ++ env.dbName)])
    | (Outcome.exited c, tr) => (Outcome.exited c, Event.prompt dbChoiceQuery :: tr)
    | (Outcome.err m, tr) => (Outcome.err m, Event.prompt dbChoiceQuery :: tr)

/-- Prompt of `getStripeSecretKey` (schema.ts:287-293). -/
def stripeKeyQuery : String := "Enter your Stripe Secret Key: "

/-- `getStripeSecretKey`: a single prompt returned verbatim, even if empty. -/
def getStripeSecretKey (env : Env) : String × List Event :=
  (env.stripeKey, [Event.prompt stripeKeyQuery])

/-- The message of the extraction error thrown at schema.ts:301. -/
def webhookExtractErrMsg : String := "Failed to extract Stripe webhook secret"

/-- `createStripeWebhook` (schema.ts:295-316): run `stripe listen
--print-secret`; on success scrape the first `whsec_[a-zA-Z0-9]+` match from
stdout, throwing the extraction error when absent; the catch block logs and
re-throws every error. -/
def createStripeWebhook (env : Env) : Outcome String × List Event :=
  if env.stripeListenOk then
    match findWhsec env.stripeListenOut.data with
    | some m => (Outcome.ok ⟨m⟩, [Event.execCmd "stripe listen --print-secret"])
    | none => (Outcome.err webhookExtractErrMsg, [Event.execCmd "stripe listen --print-secret"])
  else
    (Outcome.err "Command failed: stripe listen --print-secret",
      [Event.execCmd "stripe listen --print-secret"])

/-- The `envVars` object assembled in `main` (schema.ts:346-356): the five
mandatory keys in insertion order, then `TURSO_AUTH_TOKEN` appended only when
`isRemote && TURSO_AUTH_TOKEN` is truthy (defined and non-empty). -/
def assembleEnvVars (info : DbInfo) (stripeKey whsec authSecret : String) :
    List (String × String) :=
  let base := [("TURSO_DATABASE_URL", info.url),
               ("STRIPE_SECRET_KEY", stripeKey),
               ("STRIPE_WEBHOOK_SECRET", whsec),
               ("BASE_URL", "http://localhost:3000"),
               ("AUTH_SECRET", authSecret)]
  if info.isRemote = true ∧ info.authToken.getD "" ≠ "" then
    base ++ [("TURSO_AUTH_TOKEN", info.authToken.getD "")]
  else
    base

/-- `main` (schema.ts:333-359): the linear workflow.  Note: the source never
calls `writeEnvFile`; after assembling `envVars` it only prints the success
message, so no `Event.writeFile` is ever emitted.  The assembled mapping is
carried in the `ok` payload so that theorems can inspect it. -/
def mainRun (env : Env) : Outcome (List (String × String)) × List Event :=
  match checkStripeCLI env with
  | (Outcome.ok _, tr1) =>
    match getTursoDatabaseInfo env with
    | (Outcome.ok info, tr2) =>
      match createStripeWebhook env with
      | (Outcome.ok whsec, tr3) =>
        (Outcome.ok
            (assembleEnvVars info (getStripeSecretKey env).1 whsec
              (generateAuthSecret env.randBytes)),
          tr1 ++ tr2 ++ (getStripeSecretKey env).2 ++ tr3)
      | (Outcome.exited c, tr3) =>
        (Outcome.exited c, tr1 ++ tr2 ++ (getStripeSecretKey env).2 ++ tr3)
      | (Outcome.err m, tr3) =>
        (Outcome.err m, tr1 ++ tr2 ++ (getStripeSecretKey env).2 ++ tr3)
    | (Outcome.exited c, tr2) => (Outcome.exited c, tr1 ++ tr2)
    | (Outcome.err m, tr2) => (Outcome.err m, tr1 ++ tr2)
  | (Outcome.exited c, tr1) => (Outcome.exited c, tr1)
  | (Outcome.err m, tr1) => (Outcome.err m, tr1)

/-- The whole process (schema.ts:361): `main().catch(console.error)`.  A value
or a caught rejection both end the process normally with status 0; only
`process.exit` yields another status.  Returns the exit status and the trace. -/
def topLevel (env : Env) : Nat × List Event :=
  match mainRun env with
  | (Outcome.ok _, tr) => (0, tr)
  | (Outcome.exited c, tr) => (c, tr)
  | (Outcome.err _, tr) => (0, tr)

/-- The mapping assembled by a successful run (empty list otherwise). -/
def envVarsResult (env : Env) : List (String × String) :=
  match (mainRun env).1 with
  | Outcome.ok vs => vs
  | _ => []

/-- True when a trace contains no file-write event. -/
def noWriteEvents (tr : List Event) : Bool :=
  tr.all fun e => !e.isWrite

end Setup

namespace Setup

/-! ### Serialization lemmas for the configuration writer -/

lemma splitNL_no_nl (l : List Char) (h : '\n' ∉ l) : splitNL l = [l] := by
  induction l with
  | nil => rfl
  | cons c cs ih =>
    simp only [List.mem_cons, not_or] at h
    simp only [splitNL]
    rw [if_neg (fun hc => h.1 hc.symm), ih h.2]

lemma splitNL_append_nl (l rest : List Char) (h : '\n' ∉ l) :
    splitNL (l ++ '\n' :: rest) = l :: splitNL rest := by
  induction l with
  | nil => simp [splitNL]
  | cons c cs ih =>
    simp only [List.mem_cons, not_or] at h
    simp only [List.cons_append, splitNL, List.append_eq]
    rw [if_neg (fun hc => h.1 hc.symm), ih h.2]

lemma splitNL_joinNL : ∀ ls : List (List Char), ls ≠ [] → (∀ l ∈ ls, '\n' ∉ l) →
    splitNL (joinNL ls) = ls := by
  intro ls
  induction ls with
  | nil => intro h _; exact absurd rfl h
  | cons l ls ih =>
    intro _ hnl
    cases ls with
    | nil => simpa [joinNL] using splitNL_no_nl l (hnl l (List.mem_cons_self l []))
    | cons l2 ls2 =>
      have h1 : '\n' ∉ l := hnl l (List.mem_cons_self _ _)
      have h2 : ∀ x ∈ l2 :: ls2, '\n' ∉ x := fun x hx => hnl x (List.mem_cons_of_mem _ hx)
      simp only [joinNL]
      rw [splitNL_append_nl l _ h1, ih (by simp) h2]

lemma count_nl_joinNL : ∀ ls : List (List Char), (∀ l ∈ ls, '\n' ∉ l) →
    (joinNL ls).count '\n' = ls.length - 1 := by
  intro ls
  induction ls with
  | nil => intro _; rfl
  | cons l ls ih =>
    intro hnl
    cases ls with
    | nil =>
      simp [joinNL, List.count_eq_zero]
      exact hnl l (List.mem_cons_self _ _)
    | cons l2 ls2 =>
      have h1 : '\n' ∉ l := hnl l (List.mem_cons_self _ _)
      have ih2 := ih (fun x hx => hnl x (List.mem_cons_of_mem _ hx))
      simp only [joinNL] at ih2 ⊢
      rw [List.count_append, List.count_cons]
      rw [ih2]
      simp [List.count_eq_zero.mpr h1]

/-! ### Hex-encoding lemmas for the secret generator -/

lemma hexEncode_length : ∀ bs : List Nat, (hexEncode bs).length = 2 * bs.length := by
  intro bs
  induction bs with
  | nil => rfl
  | cons b bs ih => simp [hexEncode, ih]; omega

lemma hexDigit_lower : ∀ n : Nat, n < 16 → isLowerHexChar (hexDigit n) = true := by decide

lemma hexEncode_mem : ∀ bs : List Nat, (∀ b ∈ bs, b < 256) →
    ∀ c ∈ hexEncode bs, isLowerHexChar c = true := by
  intro bs
  induction bs with
  | nil => intro _ c hc; exact absurd hc (List.not_mem_nil c)
  | cons b bs ih =>
    intro hb c hc
    have hb0 : b < 256 := hb b (List.mem_cons_self _ _)
    rcases hc with _ | ⟨_, hc⟩
    · exact hexDigit_lower (b / 16) (by omega)
    · rcases hc with _ | ⟨_, hc⟩
      · exact hexDigit_lower (b % 16) (Nat.mod_lt b (by omega))
      · exact ih (fun x hx => hb x (List.mem_cons_of_mem _ hx)) c hc

lemma lowerHex_ne_nl (c : Char) (h : isLowerHexChar c = true) : c ≠ '\n' := by
  intro hc
  rw [hc] at h
  exact absurd h (by decide)

end Setup

namespace Setup

/-! ### Concrete runs used as witnesses and counterexamples -/

/-- A run whose Stripe version probe fails. -/
def envVFail : Env :=
  ⟨false, true, "y", true, "l", true, "db", true, true, "u", "t", "sk", true, "whsec_a", []⟩

/-- A run where the auth probe fails and the operator answers the remediation
prompt with the word `yes`; the second probe would succeed. -/
def envYes : Env :=
  ⟨true, false, "yes", true, "l", true, "db", true, true, "u", "t", "sk", true, "whsec_a", []⟩

/-- Like `envYes` but the operator answers `Y`. -/
def envYCap : Env :=
  ⟨true, false, "Y", true, "l", true, "db", true, true, "u", "t", "sk", true, "whsec_a", []⟩

/-- A run answering the store choice with `L`. -/
def envLocalCap : Env :=
  ⟨true, true, "", true, "L", true, "db", true, true, "u", "t", "sk", true, "whsec_a", []⟩

/-- A run answering the store choice with the word `local`. -/
def envLocalWord : Env :=
  ⟨true, true, "", true, "local", true, "db", true, true, "u", "t", "sk", true, "whsec_a", []⟩

/-- An empty file system. -/
def emptyFS : FS := fun _ => none

/-- A two-entry mapping used to exercise the writer. -/
def varsAB : List (String × String) := [("A", "1"), ("B", "2")]

/-! ### C6: the configuration writer -/

/-- C6: `writeEnvFile` serializes the mapping as KEY=value lines in insertion
order, one pair per line, joined by newlines with no trailing newline (the
newline count is one less than the number of pairs), and unconditionally
overwrites the fixed target path whatever the file system held before. -/
theorem c6_env_writer (vars : List (String × String)) (hne : vars ≠ [])
    (hnl : ∀ kv ∈ vars, '\n' ∉ kv.1.data ∧ '\n' ∉ kv.2.data) :
    splitNL (envContent vars).data = vars.map (fun kv => kv.1.data ++ '=' :: kv.2.data) ∧
    (envContent vars).data.count '\n' = vars.length - 1 ∧
    ∀ fs : FS, writeEnvFile vars fs envFilePath = some (envContent vars) ∧
      ∀ q, q ≠ envFilePath → writeEnvFile vars fs q = fs q := by
  have hmapne : vars.map (fun kv => kv.1.data ++ '=' :: kv.2.data) ≠ [] := by
    simpa using hne
  have hmapnl : ∀ l ∈ vars.map (fun kv => kv.1.data ++ '=' :: kv.2.data), '\n' ∉ l := by
    intro l hl
    rcases List.mem_map.mp hl with ⟨kv, hkv, rfl⟩
    have hkv2 := hnl kv hkv
    intro hmem
    rcases List.mem_append.mp hmem with h | h
    · exact hkv2.1 h
    · rcases List.mem_cons.mp h with h | h
      · exact absurd h (by decide)
      · exact hkv2.2 h
  have hdata : (envContent vars).data = joinNL (vars.map fun kv => kv.1.data ++ '=' :: kv.2.data) :=
    rfl
  refine ⟨?_, ?_, ?_⟩
  · rw [hdata, splitNL_joinNL _ hmapne hmapnl]
  · rw [hdata, count_nl_joinNL _ hmapnl, List.length_map]
  · intro fs
    constructor
    · simp [writeEnvFile, fsWrite]
    · intro q hq
      simp [writeEnvFile, fsWrite, hq]

/-- C6 witness: the writer on a concrete two-entry mapping over an empty file
system. -/
theorem c6_witness :
    splitNL (envContent varsAB).data = [['A', '=', '1'], ['B', '=', '2']] ∧
    writeEnvFile varsAB emptyFS envFilePath = some (envContent varsAB) := by
  have h := c6_env_writer varsAB (by decide) (by decide)
  exact ⟨h.1, (h.2.2 emptyFS).1⟩

/-! ### C8: the secret generator -/

/-- C8: for any 32 bytes drawn from the random source, `generateAuthSecret`
returns exactly a 64-character string all of whose characters are lowercase
hexadecimal digits; it is a pure function of the drawn bytes with no external
call (it emits no event). -/
theorem c8_generate_auth_secret (bytes : List Nat) (hlen : bytes.length = 32)
    (hbyte : ∀ b ∈ bytes, b < 256) :
    (generateAuthSecret bytes).length = 64 ∧
    ∀ c ∈ (generateAuthSecret bytes).data, isLowerHexChar c = true := by
  constructor
  · show (hexEncode bytes).length = 64
    rw [hexEncode_length, hlen]
  · intro c hc
    exact hexEncode_mem bytes hbyte c hc

/-- C8 witness: the secret generated from 32 zero bytes has length 64. -/
theorem c8_witness : (generateAuthSecret (List.replicate 32 0)).length = 64 :=
  (c8_generate_auth_secret (List.replicate 32 0) (by decide) (by decide)).1

/-! ### C7: the version probe is fatal before anything else runs -/

/-- C7: when the Stripe version probe fails, the run's whole trace is that one
command — no provisioning, secret collection, webhook registration or file
write ever executes — and the process exits with code 1. -/
theorem c7_version_probe_fatal (env : Env) (h : env.stripeVersionOk = false) :
    mainRun env = (Outcome.exited 1, [Event.execCmd "stripe --version"]) ∧
    (topLevel env).1 = 1 := by
  have hc : checkStripeCLI env = (Outcome.exited 1, [Event.execCmd "stripe --version"]) := by
    simp [checkStripeCLI, h]
  have hm : mainRun env = (Outcome.exited 1, [Event.execCmd "stripe --version"]) := by
    unfold mainRun
    rw [hc]
  exact ⟨hm, by simp [topLevel, hm]⟩

/-- C7 witness: a concrete run with a failing version probe. -/
theorem c7_witness :
    mainRun envVFail = (Outcome.exited 1, [Event.execCmd "stripe --version"]) ∧
    (topLevel envVFail).1 = 1 :=
  c7_version_probe_fatal envVFail rfl

/-! ### C10: the local/remote branch of the provisioner -/

/-- C10: the local path — returning exactly url `file:dev.db`, not remote, no
auth-token property, with the prompt as the only event (no external call) — is
taken precisely when the answer lowercases to `l`; on every other answer the
remote path runs, beginning with the Turso CLI check. -/
theorem c10_db_choice (env : Env) :
    (jsToLower env.dbChoice = "l" →
      getTursoDatabaseInfo env =
        (Outcome.ok ⟨"file:dev.db", false, none⟩, [Event.prompt dbChoiceQuery])) ∧
    (jsToLower env.dbChoice ≠ "l" →
      (getTursoDatabaseInfo env).2.take 2 =
        [Event.prompt dbChoiceQuery, Event.execCmd "turso --version"]) := by
  constructor
  · intro h
    simp [getTursoDatabaseInfo, h]
  · intro h
    cases hv : env.tursoVersionOk <;>
      cases hc : env.tursoCreateOk <;>
        cases hs : env.tursoShowOk <;>
          simp [getTursoDatabaseInfo, checkTursoCLI, h, hv, hc, hs, List.take]

/-- C10 witness: answer `L` takes the local path; answer `local` takes the
remote path, starting with the Turso CLI check. -/
theorem c10_witness :
    getTursoDatabaseInfo envLocalCap =
      (Outcome.ok ⟨"file:dev.db", false, none⟩, [Event.prompt dbChoiceQuery]) ∧
    (getTursoDatabaseInfo envLocalWord).2.take 2 =
      [Event.prompt dbChoiceQuery, Event.execCmd "turso --version"] :=
  ⟨(c10_db_choice envLocalCap).1 (by decide), (c10_db_choice envLocalWord).2 (by decide)⟩

/-! ### C5: the preflight auth retry -/

/-- C5 (amended): the auth probe runs at most twice in any invocation; when it
first fails, an answer whose lowercase form is not exactly the single letter
`y` exits with code 1 without re-probing, and an answer lowercasing to `y`
re-runs the probe exactly once more, a failure of that re-check exiting with
code 1. -/
theorem c5_auth_retry (env : Env) :
    authProbeCount (checkStripeCLI env).2 ≤ 2 ∧
    (env.stripeVersionOk = true → env.stripeAuthOk1 = false →
      ((jsToLower env.stripeAuthAnswer ≠ "y" →
          (checkStripeCLI env).1 = Outcome.exited 1 ∧
            authProbeCount (checkStripeCLI env).2 = 1) ∧
        (jsToLower env.stripeAuthAnswer = "y" →
          authProbeCount (checkStripeCLI env).2 = 2 ∧
            (env.stripeAuthOk2 = false → (checkStripeCLI env).1 = Outcome.exited 1) ∧
            (env.stripeAuthOk2 = true → (checkStripeCLI env).1 = Outcome.ok ())))) := by
  cases hv : env.stripeVersionOk <;> cases h1 : env.stripeAuthOk1 <;>
    by_cases ha : jsToLower env.stripeAuthAnswer = "y" <;>
      cases h2 : env.stripeAuthOk2 <;>
        simp [checkStripeCLI, authProbeCount, hv, h1, ha, h2] <;> decide

/-- C5 counterexample to the claim as stated: the operator answers the
remediation prompt with the literal word `yes` (and the re-probe would
succeed), yet the process exits with code 1 and the auth probe is not re-run:
it has run only once. -/
theorem c5_counterexample :
    (checkStripeCLI envYes).1 = Outcome.exited 1 ∧
      authProbeCount (checkStripeCLI envYes).2 = 1 := by decide

/-- C5 witness: on answer `Y` the probe runs exactly twice and the run
proceeds when the re-probe succeeds. -/
theorem c5_witness :
    authProbeCount (checkStripeCLI envYCap).2 = 2 ∧
      (checkStripeCLI envYCap).1 = Outcome.ok () := by
  have h := ((c5_auth_retry envYCap).2 rfl rfl).2 (by decide)
  exact ⟨h.1, h.2.2 rfl⟩

end Setup

namespace Setup

/-! ### Structural lemmas about the workflow -/

lemma checkStripeCLI_no_write (env : Env) :
    ∀ e ∈ (checkStripeCLI env).2, e.isWrite = false := by
  cases hv : env.stripeVersionOk <;> cases h1 : env.stripeAuthOk1 <;>
    by_cases ha : jsToLower env.stripeAuthAnswer = "y" <;>
      cases h2 : env.stripeAuthOk2 <;>
        simp [checkStripeCLI, hv, h1, ha, h2, authProbeCmd, Event.isWrite,
          List.forall_mem_cons]

lemma getTurso_no_write (env : Env) :
    ∀ e ∈ (getTursoDatabaseInfo env).2, e.isWrite = false := by
  by_cases hl : jsToLower env.dbChoice = "l" <;>
    cases hv : env.tursoVersionOk <;>
      cases hc : env.tursoCreateOk <;>
        cases hs : env.tursoShowOk <;>
          simp [getTursoDatabaseInfo, checkTursoCLI, hl, hv, hc, hs, Event.isWrite,
            List.forall_mem_cons]

lemma createWebhook_no_write (env : Env) :
    ∀ e ∈ (createStripeWebhook env).2, e.isWrite = false := by
  cases hk : env.stripeListenOk
  · simp [createStripeWebhook, hk, Event.isWrite, List.forall_mem_cons]
  · rcases hm : findWhsec env.stripeListenOut.data with _ | m <;>
      simp [createStripeWebhook, hk, hm, Event.isWrite, List.forall_mem_cons]

lemma mainRun_no_write (env : Env) : ∀ e ∈ (mainRun env).2, e.isWrite = false := by
  have H1 := checkStripeCLI_no_write env
  have H2 := getTurso_no_write env
  have H3 := createWebhook_no_write env
  intro e he
  unfold mainRun at he
  rcases hc : checkStripeCLI env with ⟨o1, t1⟩
  rw [hc] at he H1
  cases o1 with
  | ok a =>
    rcases hg : getTursoDatabaseInfo env with ⟨o2, t2⟩
    rw [hg] at he H2
    cases o2 with
    | ok info =>
      rcases hw : createStripeWebhook env with ⟨o3, t3⟩
      rw [hw] at he H3
      cases o3 <;>
      · simp only [getStripeSecretKey, List.mem_append, List.mem_cons,
          List.not_mem_nil, or_false] at he
        rcases he with ((he | he) | he) | he
        · exact H1 e he
        · exact H2 e he
        · subst he; rfl
        · exact H3 e he
    | exited c =>
      simp only [List.mem_append] at he
      rcases he with he | he
      · exact H1 e he
      · exact H2 e he
    | err msg =>
      simp only [List.mem_append] at he
      rcases he with he | he
      · exact H1 e he
      · exact H2 e he
  | exited c => exact H1 e he
  | err msg => exact H1 e he

lemma createWebhook_ok_elim (env : Env) (w : String)
    (h : (createStripeWebhook env).1 = Outcome.ok w) :
    ∃ m, findWhsec env.stripeListenOut.data = some m ∧ w = ⟨m⟩ := by
  cases hk : env.stripeListenOk
  · simp [createStripeWebhook, hk] at h
  · rcases hm : findWhsec env.stripeListenOut.data with _ | m
    · simp [createStripeWebhook, hk, hm] at h
    · refine ⟨m, rfl, ?_⟩
      simp [createStripeWebhook, hk, hm] at h
      exact h.symm

lemma getTurso_ok_elim (env : Env) (info : DbInfo)
    (h : (getTursoDatabaseInfo env).1 = Outcome.ok info) :
    (jsToLower env.dbChoice = "l" ∧ info = ⟨"file:dev.db", false, none⟩) ∨
    (¬ jsToLower env.dbChoice = "l" ∧
      info = ⟨jsTrim env.tursoShowOut, true, some env.tursoAuthToken⟩) := by
  by_cases hl : jsToLower env.dbChoice = "l"
  · left
    refine ⟨hl, ?_⟩
    simp [getTursoDatabaseInfo, hl] at h
    exact h.symm
  · right
    refine ⟨hl, ?_⟩
    cases hv : env.tursoVersionOk
    · simp [getTursoDatabaseInfo, checkTursoCLI, hl, hv] at h
    · cases hcr : env.tursoCreateOk
      · simp [getTursoDatabaseInfo, checkTursoCLI, hl, hv, hcr] at h
      · cases hs : env.tursoShowOk
        · simp [getTursoDatabaseInfo, checkTursoCLI, hl, hv, hcr, hs] at h
        · simp [getTursoDatabaseInfo, checkTursoCLI, hl, hv, hcr, hs] at h
          exact h.symm

lemma mainRun_ok_elim (env : Env) (vars : List (String × String))
    (h : (mainRun env).1 = Outcome.ok vars) :
    ∃ info m, (getTursoDatabaseInfo env).1 = Outcome.ok info ∧
      findWhsec env.stripeListenOut.data = some m ∧
      vars = assembleEnvVars info env.stripeKey ⟨m⟩ (generateAuthSecret env.randBytes) := by
  unfold mainRun at h
  rcases hc : checkStripeCLI env with ⟨o1, t1⟩
  rw [hc] at h
  cases o1 with
  | exited c => simp at h
  | err msg => simp at h
  | ok a =>
    rcases hg : getTursoDatabaseInfo env with ⟨o2, t2⟩
    rw [hg] at h
    cases o2 with
    | exited c => simp at h
    | err msg => simp at h
    | ok info =>
      rcases hw : createStripeWebhook env with ⟨o3, t3⟩
      rw [hw] at h
      cases o3 with
      | exited c => simp at h
      | err msg => simp at h
      | ok w =>
        rcases createWebhook_ok_elim env w (by rw [hw]) with ⟨m, hm, hwm⟩
        refine ⟨info, m, rfl, hm, ?_⟩
        subst hwm
        simp [getStripeSecretKey] at h
        exact h.symm

lemma findWhsec_props : ∀ l m, findWhsec l = some m → m ≠ [] ∧ '\n' ∉ m := by
  intro l
  induction l with
  | nil => intro m h; exact absurd h (by simp [findWhsec])
  | cons c cs ih =>
    intro m h
    simp only [findWhsec] at h
    by_cases hcond :
        (whsecHead.isPrefixOf (c :: cs) && !(((c :: cs).drop 6).takeWhile isAlnum).isEmpty) = true
    · rw [if_pos hcond] at h
      have hm : m = whsecHead ++ ((c :: cs).drop 6).takeWhile isAlnum := (Option.some.inj h).symm
      subst hm
      constructor
      · simp [whsecHead]
      · intro hmem
        rcases List.mem_append.mp hmem with hh | hh
        · exact absurd hh (by decide)
        · exact absurd (List.mem_takeWhile_imp hh) (by decide)
    · rw [if_neg hcond] at h
      exact ih m h

end Setup

namespace Setup

/-! ### Further concrete runs -/

/-- A fully successful run up to the webhook step, whose listen output holds
no `whsec_` token. -/
def envNoMatch : Env :=
  ⟨true, true, "", true, "l", true, "db", true, true, "u", "t", "sk", true,
    "Ready! You are using Stripe API Version 2024-06-20.", List.replicate 32 0⟩

/-- The trace of `envNoMatch`. -/
def trNoMatch : List Event :=
  [Event.execCmd "stripe --version", authProbeCmd, Event.prompt dbChoiceQuery,
    Event.prompt stripeKeyQuery, Event.execCmd "stripe listen --print-secret"]

/-- A fully successful local-store run. -/
def envGood : Env :=
  ⟨true, true, "", true, "l", true, "db", true, true, "u", "t", "sk_test_123", true,
    "Ready! Your webhook signing secret is whsec_abc123 (live mode)", List.replicate 32 0⟩

/-- A fully successful remote-store run with a non-empty auth token. -/
def envRemoteTok : Env :=
  ⟨true, true, "", true, "r", true, "mydb", true, true, "  libsql://mydb.turso.io  \n",
    "tok123", "sk_test", true, "whsec_s3cret listening", List.replicate 32 7⟩

/-- A fully successful remote-store run whose auth-token answer is empty. -/
def envRemoteEmptyTok : Env :=
  ⟨true, true, "", true, "r", true, "mydb", true, true, "  libsql://mydb.turso.io  \n",
    "", "sk", true, "whsec_s3cret listening", List.replicate 32 0⟩

/-- A fully successful local-store run whose Stripe-key answer is empty. -/
def envEmptyKey : Env :=
  ⟨true, true, "", true, "l", true, "db", true, true, "u", "t", "", true,
    "whsec_abc listening", List.replicate 32 0⟩

/-! ### C1: the configuration writer never runs -/

/-- C1: on a fully successful run the workflow assembles the mandatory keys in
memory and ends with status 0, yet its trace holds no file-write event at all:
`main` never invokes `writeEnvFile`, so no configuration artifact is
persisted, contradicting the documented final step. -/
theorem c1_writer_never_runs :
    (mainRun envGood).1 = Outcome.ok (envVarsResult envGood) ∧
    (envVarsResult envGood).map Prod.fst =
      ["TURSO_DATABASE_URL", "STRIPE_SECRET_KEY", "STRIPE_WEBHOOK_SECRET", "BASE_URL",
        "AUTH_SECRET"] ∧
    noWriteEvents (mainRun envGood).2 = true ∧
    (topLevel envGood).1 = 0 := by decide

/-! ### C2: failed webhook-secret extraction -/

/-- C2 (amended): when the listen command succeeds but its output holds no
`whsec_` match, the registrar raises the extraction error — whose message is
"Failed to extract Stripe webhook secret" — the run cannot reach the success
outcome, and no configuration artifact is written or modified (the trace holds
no write event). -/
theorem c2_extraction_error (env : Env) (hok : env.stripeListenOk = true)
    (hnm : findWhsec env.stripeListenOut.data = none) :
    (createStripeWebhook env).1 = Outcome.err webhookExtractErrMsg ∧
    (∀ vars, (mainRun env).1 ≠ Outcome.ok vars) ∧
    (∀ e ∈ (mainRun env).2, e.isWrite = false) := by
  refine ⟨by simp [createStripeWebhook, hok, hnm], ?_, mainRun_no_write env⟩
  intro vars hv
  rcases mainRun_ok_elim env vars hv with ⟨info, m, _, hm, _⟩
  rw [hnm] at hm
  exact Option.noConfusion hm

/-- C2 counterexample to the claim as stated: the raised message is
"Failed to extract Stripe webhook secret", not the claimed
"Failed to extract webhook secret". -/
theorem c2_counterexample :
    (createStripeWebhook envNoMatch).1 =
      Outcome.err "Failed to extract Stripe webhook secret" ∧
    (createStripeWebhook envNoMatch).1 ≠
      Outcome.err "Failed to extract webhook secret" := by decide

/-- C2 witness: the concrete run without a `whsec_` token raises the
extraction error. -/
theorem c2_witness :
    (createStripeWebhook envNoMatch).1 = Outcome.err webhookExtractErrMsg :=
  (c2_extraction_error envNoMatch rfl (by decide)).1

/-! ### C4: the fate of thrown errors at top level -/

/-- C4 (amended): every error thrown during webhook-secret extraction (or any
later step) propagates out of `main` as a rejected promise, but the top-level
handler `main().catch(console.error)` handles it and only logs: the process
then terminates with exit status 0, not a non-zero status. -/
theorem c4_caught_rejection (env : Env) (msg : String) (tr : List Event)
    (h : mainRun env = (Outcome.err msg, tr)) :
    topLevel env = (0, tr) := by
  simp [topLevel, h]

/-- C4 counterexample to the claim as stated: a run in which the extraction
error is raised ends with exit status 0 — the error is swallowed by the
top-level handler rather than failing the process. -/
theorem c4_counterexample :
    (mainRun envNoMatch).1 = Outcome.err webhookExtractErrMsg ∧
    (topLevel envNoMatch).1 = 0 := by decide

/-- C4 witness: the concrete failing run mapped through the top-level handler. -/
theorem c4_witness : topLevel envNoMatch = (0, trNoMatch) :=
  c4_caught_rejection envNoMatch webhookExtractErrMsg trNoMatch (by decide)

/-! ### C3: presence of the auth-token key -/

/-- C3 (amended): in the assembled mapping the data-store auth-token key is
present if and only if the operator chose the remote store AND answered the
token prompt with a non-empty string; an empty token answer on the remote path
omits the key. -/
theorem c3_auth_token_iff (env : Env) (vars : List (String × String))
    (h : (mainRun env).1 = Outcome.ok vars) :
    "TURSO_AUTH_TOKEN" ∈ vars.map Prod.fst ↔
      (¬ jsToLower env.dbChoice = "l" ∧ ¬ env.tursoAuthToken = "") := by
  rcases mainRun_ok_elim env vars h with ⟨info, m, hinfo, _, rfl⟩
  rcases getTurso_ok_elim env info hinfo with ⟨hl, rfl⟩ | ⟨hl, rfl⟩
  · simp [assembleEnvVars, hl]
  · by_cases ht : env.tursoAuthToken = "" <;> simp [assembleEnvVars, hl, ht]

/-- C3 counterexample to the claim as stated: a successful run that chose the
remote store but answered the token prompt with the empty string — the
auth-token key is absent from the assembled mapping. -/
theorem c3_counterexample :
    (mainRun envRemoteEmptyTok).1 = Outcome.ok (envVarsResult envRemoteEmptyTok) ∧
    (getTursoDatabaseInfo envRemoteEmptyTok).1 =
      Outcome.ok ⟨"libsql://mydb.turso.io", true, some ""⟩ ∧
    "TURSO_AUTH_TOKEN" ∉ (envVarsResult envRemoteEmptyTok).map Prod.fst := by decide

/-- C3 witness: the amended equivalence at a concrete remote run with a
non-empty token. -/
theorem c3_witness :
    "TURSO_AUTH_TOKEN" ∈ (envVarsResult envRemoteTok).map Prod.fst ↔
      (¬ jsToLower envRemoteTok.dbChoice = "l" ∧ ¬ envRemoteTok.tursoAuthToken = "") :=
  c3_auth_token_iff envRemoteTok (envVarsResult envRemoteTok) (by decide)

end Setup

namespace Setup

/-! ### C9: shape of the assembled values -/

/-- C9 (amended): on any successful run whose operator answers and trimmed URL
output are single-line (readline answers always are) and whose random source
yields 32 bytes, every value of the assembled mapping is newline-free, and
every value other than the operator-supplied Stripe secret key and the
data-store URL is non-empty.  (The secret key is stored verbatim even when
empty, and a whitespace-only URL output would be stored as the empty string.) -/
theorem c9_values (env : Env) (vars : List (String × String))
    (h : (mainRun env).1 = Outcome.ok vars)
    (hlen : env.randBytes.length = 32)
    (hbytes : ∀ b ∈ env.randBytes, b < 256)
    (hk : '\n' ∉ env.stripeKey.data)
    (ht : '\n' ∉ env.tursoAuthToken.data)
    (hu : '\n' ∉ (jsTrim env.tursoShowOut).data) :
    (∀ kv ∈ vars, '\n' ∉ (kv.2 : String).data) ∧
    (∀ kv ∈ vars, ¬ kv.1 = "STRIPE_SECRET_KEY" → ¬ kv.1 = "TURSO_DATABASE_URL" →
      ¬ kv.2 = "") := by
  rcases mainRun_ok_elim env vars h with ⟨info, m, hinfo, hm, rfl⟩
  have hw := findWhsec_props env.stripeListenOut.data m hm
  have hsec_nl : '\n' ∉ (generateAuthSecret env.randBytes).data := fun hc =>
    lowerHex_ne_nl '\n' (hexEncode_mem env.randBytes hbytes '\n' hc) rfl
  have hsec_ne : ¬ generateAuthSecret env.randBytes = "" := by
    intro he
    have hd : hexEncode env.randBytes = [] := congrArg String.data he
    have hl2 := hexEncode_length env.randBytes
    rw [hd, hlen] at hl2
    simp at hl2
  have hwm_ne : ¬ (⟨m⟩ : String) = "" := fun he => hw.1 (congrArg String.data he)
  have hwm_nl : '\n' ∉ (⟨m⟩ : String).data := hw.2
  rcases getTurso_ok_elim env info hinfo with ⟨hl, rfl⟩ | ⟨hl, rfl⟩
  · constructor
    · intro kv hkv
      simp [assembleEnvVars] at hkv
      rcases hkv with rfl | rfl | rfl | rfl | rfl
      · decide
      · exact hk
      · exact hwm_nl
      · decide
      · exact hsec_nl
    · intro kv hkv h1 h2
      simp [assembleEnvVars] at hkv
      rcases hkv with rfl | rfl | rfl | rfl | rfl
      · exact absurd rfl h2
      · exact absurd rfl h1
      · exact hwm_ne
      · decide
      · exact hsec_ne
  · by_cases ht0 : env.tursoAuthToken = ""
    · constructor
      · intro kv hkv
        simp [assembleEnvVars, ht0] at hkv
        rcases hkv with rfl | rfl | rfl | rfl | rfl
        · exact hu
        · exact hk
        · exact hwm_nl
        · decide
        · exact hsec_nl
      · intro kv hkv h1 h2
        simp [assembleEnvVars, ht0] at hkv
        rcases hkv with rfl | rfl | rfl | rfl | rfl
        · exact absurd rfl h2
        · exact absurd rfl h1
        · exact hwm_ne
        · decide
        · exact hsec_ne
    · constructor
      · intro kv hkv
        simp [assembleEnvVars, ht0] at hkv
        rcases hkv with rfl | rfl | rfl | rfl | rfl | rfl
        · exact hu
        · exact hk
        · exact hwm_nl
        · decide
        · exact hsec_nl
        · exact ht
      · intro kv hkv h1 h2
        simp [assembleEnvVars, ht0] at hkv
        rcases hkv with rfl | rfl | rfl | rfl | rfl | rfl
        · exact absurd rfl h2
        · exact absurd rfl h1
        · exact hwm_ne
        · decide
        · exact hsec_ne
        · exact ht0

/-- C9 counterexample to the claim as stated: a successful run in which the
operator answered the Stripe-key prompt with the empty string — the assembled
mapping carries an empty value for that key. -/
theorem c9_counterexample :
    (mainRun envEmptyKey).1 = Outcome.ok (envVarsResult envEmptyKey) ∧
    ("STRIPE_SECRET_KEY", "") ∈ envVarsResult envEmptyKey := by decide

/-- C9 witness: the amended statement applied to the concrete remote run, read
off at the auth-token entry. -/
theorem c9_witness :
    '\n' ∉ (("TURSO_AUTH_TOKEN", "tok123") : String × String).2.data ∧
    ¬ (("TURSO_AUTH_TOKEN", "tok123") : String × String).2 = "" := by
  have h := c9_values envRemoteTok (envVarsResult envRemoteTok) (by decide) (by decide)
    (by decide) (by decide) (by decide) (by decide)
  exact ⟨h.1 ("TURSO_AUTH_TOKEN", "tok123") (by decide),
    h.2 ("TURSO_AUTH_TOKEN", "tok123") (by decide) (by decide) (by decide)⟩

end Setup
